import Mathlib

/-!
Verification development for the Smart Face Attendance System.

The definitions below are a shallow embedding of the repository's code:

* `backend/controllers/attendanceController.js` — the attendance classifier
  (`markAttendance`), the session lifecycle (`startSession` / `endSession`)
  and the manual override endpoint (`manualOverride`).
* `frontend/src/ai/livenessChallenges.js` — the blink, head-turn and smile
  gesture detectors and the challenge runner.
* `frontend/src/components/LivenessChallenge.jsx` — the detection loop.

JavaScript numbers are modelled as rationals (`ℚ`) where fractional
arithmetic matters (EAR values, pixel coordinates, minutes-late division)
and as integers (`ℤ`/`ℕ`) for frame indices, counters and millisecond
timestamps.  Fallible lookups are modelled with `Option`; the MongoDB
collections touched by the controllers are modelled as Lean lists.
-/

namespace FaceAttendance

/-! ## Attendance status

`Attendance.status` is one of the four strings accepted by the schema and by
`manualOverride`'s validation list `['present', 'absent', 'late', 'excused']`.
-/

inductive AStatus where
  | present
  | absent
  | late
  | excused
deriving DecidableEq, Repr

/-! ## Attendance classifier (`markAttendance`, attendanceController.js)

Constants from the source:
`LATE_THRESHOLD_MINUTES = 5`, `MAX_CONSECUTIVE_LATE = 3`.
-/

def LATE_THRESHOLD_MINUTES : ℚ := 5

def MAX_CONSECUTIVE_LATE : ℕ := 3

/-- `minutesLate = (currentTime - sessionStartTime) / (1000 * 60)` with
timestamps in milliseconds (JavaScript `Date` subtraction). -/
def minutesLate (currentTime sessionStartTime : ℤ) : ℚ :=
  ((currentTime - sessionStartTime : ℤ) : ℚ) / (1000 * 60)

/-- `isLate = minutesLate > LATE_THRESHOLD_MINUTES`. -/
def isLate (currentTime sessionStartTime : ℤ) : Bool :=
  decide (LATE_THRESHOLD_MINUTES < minutesLate currentTime sessionStartTime)

/-- The consecutive-late walk of `markAttendance`: iterate over the fetched
previous attendances (most recent first), incrementing while
`status === 'late'` and breaking at the first non-late record. -/
def consecutiveLateWalk : List AStatus → ℕ
  | [] => 0
  | s :: rest => if s = AStatus.late then consecutiveLateWalk rest + 1 else 0

/-- The streak value `markAttendance` actually uses: the query fetches the
previous-date records sorted `{ date: -1 }` with `.limit(3)`, so the walk
only ever sees the three most recent prior records. -/
def consecutiveLateCountOf (prevStatuses : List AStatus) : ℕ :=
  consecutiveLateWalk (prevStatuses.take 3)

/-- The status-resolution cascade of `markAttendance` (lines 120–152):
input is the optional explicit status from the request (`record.status`,
`none` when absent/falsy), the `isLate` flag, and the consecutive-late
count from the history walk; output is `(finalStatus,
finalConsecutiveLateCount)`. -/
def determineFinalStatus (status : Option AStatus) (late : Bool)
    (consecutiveLateCount : ℕ) : AStatus × ℕ :=
  match status with
  | none =>
    if late then
      if consecutiveLateCount + 1 ≥ MAX_CONSECUTIVE_LATE then
        (AStatus.absent, 0)
      else
        (AStatus.late, consecutiveLateCount + 1)
    else
      (AStatus.present, 0)
  | some AStatus.present =>
    if late then
      if consecutiveLateCount + 1 ≥ MAX_CONSECUTIVE_LATE then
        (AStatus.absent, 0)
      else
        (AStatus.late, consecutiveLateCount + 1)
    else
      (AStatus.present, 0)
  | some s => (s, consecutiveLateCount)

/-! ## Attendance store and the upsert of `markAttendance`

`Attendance.findOneAndUpdate(filter, update, { upsert: true })` with the
filter `{ studentId, classId, date, sessionId }`: the first document
matching the key tuple is replaced by the update document; when none
matches, the update document is inserted.
-/

structure AttendanceRecord where
  studentId : String
  classId : String
  lecturerId : String
  date : String
  time : String
  lastScanTime : ℤ
  status : AStatus
  consecutiveLateCount : ℕ
  capturedOffline : Bool
  sessionId : String
  remark : Option String
deriving DecidableEq, Repr

/-- The upsert key tuple `(studentId, classId, date, sessionId)`. -/
structure AKey where
  studentId : String
  classId : String
  date : String
  sessionId : String
deriving DecidableEq, Repr

def matchesKey (k : AKey) (r : AttendanceRecord) : Bool :=
  r.studentId = k.studentId ∧ r.classId = k.classId ∧
    r.date = k.date ∧ r.sessionId = k.sessionId

/-- Number of stored records matching a key tuple. -/
def countKey (db : List AttendanceRecord) (k : AKey) : ℕ :=
  (db.filter (matchesKey k)).length

/-- `findOneAndUpdate` with `upsert: true`: replace the first record
matching the key, or insert the new record when none matches. -/
def upsertAttendance (k : AKey) (newRec : AttendanceRecord) :
    List AttendanceRecord → List AttendanceRecord
  | [] => [newRec]
  | r :: rest =>
    if matchesKey k r then newRec :: rest
    else r :: upsertAttendance k newRec rest

/-- One per-student iteration of the `markAttendance` loop, success path:
compute `isLate` from the session start time, walk the previous-date
history for the consecutive-late streak, resolve the final status, and
upsert the record keyed by `(studentId, classId, date=today, sessionId)`. -/
structure MarkInput where
  status : Option AStatus
  time : Option String
  capturedOffline : Bool
  currentTime : ℤ
  prevStatuses : List AStatus

def mkUpsertedRecord (k : AKey) (lecturerId : String) (inp : MarkInput)
    (finalStatus : AStatus) (finalCount : ℕ) : AttendanceRecord :=
  { studentId := k.studentId
    classId := k.classId
    lecturerId := lecturerId
    date := k.date
    time := inp.time.getD ""
    lastScanTime := inp.currentTime
    status := finalStatus
    consecutiveLateCount := finalCount
    capturedOffline := inp.capturedOffline
    sessionId := k.sessionId
    remark := none }

def markStudent (sessionStartTime : ℤ) (k : AKey) (lecturerId : String)
    (inp : MarkInput) (db : List AttendanceRecord) : List AttendanceRecord :=
  let late := isLate inp.currentTime sessionStartTime
  let streak := consecutiveLateCountOf inp.prevStatuses
  let (finalStatus, finalCount) := determineFinalStatus inp.status late streak
  upsertAttendance k (mkUpsertedRecord k lecturerId inp finalStatus finalCount) db

/-- A sequence of `markAttendance` iterations for the same student within
the same session (same key tuple), applied oldest first. -/
def markSequence (sessionStartTime : ℤ) (k : AKey) (lecturerId : String)
    (inps : List MarkInput) (db : List AttendanceRecord) :
    List AttendanceRecord :=
  inps.foldl (fun acc inp => markStudent sessionStartTime k lecturerId inp acc) db

/-! ## Session lifecycle (`startSession` / `endSession`)

`activeSessions` is the in-memory `Map` of attendanceController.js, keyed
by `sessionId`; `AttendanceSession` documents live in the persistent store.
-/

structure SessionInfo where
  classId : String
  lecturerId : String
  date : String
  createdAt : ℤ
deriving DecidableEq, Repr

inductive SessionStatus where
  | active
  | completed
deriving DecidableEq, Repr

structure SessionDoc where
  sessionId : String
  classId : String
  lecturerId : String
  startTime : ℤ
  endTime : Option ℤ
  date : String
  totalStudents : ℕ
  status : SessionStatus
  presentCount : ℕ
  absentCount : ℕ
  lateCount : ℕ
deriving DecidableEq, Repr

structure AuditEntry where
  actorUserId : String
  action : String
deriving DecidableEq, Repr

/-- The server-side state touched by the attendance controller. -/
structure ServerState where
  activeSessions : List (String × SessionInfo)
  sessionDocs : List SessionDoc
  attendanceDb : List AttendanceRecord
  auditLog : List AuditEntry
deriving DecidableEq, Repr

def lookupActive (m : List (String × SessionInfo)) (sid : String) :
    Option SessionInfo :=
  (m.find? (fun e => e.1 = sid)).map (fun e => e.2)

/-- `Attendance.aggregate` grouping by status for one session: the count of
records of a given status carrying this `sessionId`. -/
def countStatus (db : List AttendanceRecord) (sid : String) (s : AStatus) : ℕ :=
  (db.filter (fun r => r.sessionId = sid ∧ r.status = s)).length

inductive EndResult where
  | validationError
  | sessionNotFound
  | forbidden
  | ended
deriving DecidableEq, Repr

/-- `endSession` (attendanceController.js lines 649–712).  The order of the
source is kept: the empty-id validation, the active-session lookup
(404 when absent), the ownership check, then the persistent updates,
removal from `activeSessions`, and the audit log entry. -/
def endSession (st : ServerState) (userId : String) (sessionId : String)
    (now : ℤ) : EndResult × ServerState :=
  if sessionId = "" then (EndResult.validationError, st)
  else
    match lookupActive st.activeSessions sessionId with
    | none => (EndResult.sessionNotFound, st)
    | some session =>
      if session.lecturerId ≠ userId then (EndResult.forbidden, st)
      else
        let presentCount := countStatus st.attendanceDb sessionId AStatus.present
        let absentCount := countStatus st.attendanceDb sessionId AStatus.absent
        let lateCount := countStatus st.attendanceDb sessionId AStatus.late
        let docs := st.sessionDocs.map (fun d =>
          if d.sessionId = sessionId then
            { d with endTime := some now
                     presentCount := presentCount
                     absentCount := absentCount
                     lateCount := lateCount
                     status := SessionStatus.completed }
          else d)
        let active := st.activeSessions.filter (fun e => ¬ e.1 = sessionId)
        (EndResult.ended,
          { st with
              sessionDocs := docs
              activeSessions := active
              auditLog := st.auditLog ++ [⟨userId, "END_SESSION"⟩] })

/-! ## Manual override (`manualOverride`)

The attendance store is keyed by Mongo `_id` here.  The source calls
`Attendance.findByIdAndUpdate(attendanceId, { status, remark })` FIRST and
only then checks lecturer ownership, so a 403 response can leave the
record already modified.  The `status` argument is modelled as `AStatus`
because the source's `['present','absent','late','excused'].includes`
validation rejects every other string before this point.
-/

/-- `Attendance.findByIdAndUpdate(id, { status, remark }, { new: true })`:
update the (unique) record with this `_id` and return the updated record. -/
def findByIdAndUpdate (aid : String) (st : AStatus) (remark : Option String) :
    List (String × AttendanceRecord) →
    Option AttendanceRecord × List (String × AttendanceRecord)
  | [] => (none, [])
  | (i, r) :: rest =>
    if i = aid then
      let r2 := { r with status := st, remark := remark }
      (some r2, (i, r2) :: rest)
    else
      let (found, rest2) := findByIdAndUpdate aid st remark rest
      (found, (i, r) :: rest2)

inductive OverrideResult where
  | validationError
  | notFound
  | forbidden
  | ok (a : AttendanceRecord)
deriving DecidableEq, Repr

/-- `manualOverride` (attendanceController.js lines 222–258): validation,
then the `findByIdAndUpdate`, then 404 on missing record, then the
lecturer-ownership check. -/
def manualOverride (db : List (String × AttendanceRecord))
    (userRole userId : String) (attendanceId : String) (status : AStatus)
    (remark : Option String) :
    OverrideResult × List (String × AttendanceRecord) :=
  if attendanceId = "" then (OverrideResult.validationError, db)
  else
    let p := findByIdAndUpdate attendanceId status remark db
    match p.1 with
    | none => (OverrideResult.notFound, p.2)
    | some a =>
      if userRole = "lecturer" ∧ ¬ a.lecturerId = userId then
        (OverrideResult.forbidden, p.2)
      else (OverrideResult.ok a, p.2)

/-- Lookup by `_id` in the keyed attendance store. -/
def lookupById (db : List (String × AttendanceRecord)) (aid : String) :
    Option AttendanceRecord :=
  (db.find? (fun e => e.1 = aid)).map (fun e => e.2)

/-! ## Blink detector (`createBlinkDetector`, livenessChallenges.js)

Constants from the source: `EAR_OPEN_THRESHOLD = 0.25`,
`EAR_CLOSED_THRESHOLD = 0.18`, `BLINK_DEBOUNCE_FRAMES = 3`.  The
detector's `update` receives the landmarks and the frame index; only the
average EAR it computes from the two eyes feeds the decision, so the step
below takes `avgEAR : ℚ` directly.
-/

def EAR_OPEN_THRESHOLD : ℚ := 25 / 100

def EAR_CLOSED_THRESHOLD : ℚ := 18 / 100

def BLINK_DEBOUNCE_FRAMES : ℤ := 3

structure BlinkState where
  blinkCount : ℕ
  wasClosed : Bool
  closedFrameCount : ℕ
  lastBlinkFrame : ℤ
deriving DecidableEq, Repr

/-- Initial blink state: `lastBlinkFrame = -BLINK_DEBOUNCE_FRAMES - 1`. -/
def blinkInit : BlinkState :=
  { blinkCount := 0, wasClosed := false, closedFrameCount := 0
    lastBlinkFrame := -BLINK_DEBOUNCE_FRAMES - 1 }

/-- One `update` call of the blink detector.
`isClosed = avgEAR < EAR_CLOSED_THRESHOLD`,
`isOpen = avgEAR > EAR_OPEN_THRESHOLD` (both strict in the source). -/
def blinkStep (s : BlinkState) (avgEAR : ℚ) (frameIndex : ℤ) : BlinkState :=
  let isClosed := decide (avgEAR < EAR_CLOSED_THRESHOLD)
  let isOpen := decide (EAR_OPEN_THRESHOLD < avgEAR)
  if isClosed then
    { s with closedFrameCount := s.closedFrameCount + 1, wasClosed := true }
  else if isOpen ∧ s.wasClosed then
    let framesSinceLastBlink := frameIndex - s.lastBlinkFrame
    if s.closedFrameCount ≥ 2 ∧ framesSinceLastBlink > BLINK_DEBOUNCE_FRAMES then
      { blinkCount := s.blinkCount + 1, lastBlinkFrame := frameIndex
        wasClosed := false, closedFrameCount := 0 }
    else
      { s with wasClosed := false, closedFrameCount := 0 }
  else if isOpen then
    { s with wasClosed := false, closedFrameCount := 0 }
  else s

/-- Feed a sequence of per-frame average EAR values to the detector.
`LivenessChallenge.jsx` increments `frameRef` before each detection, so
the frame indices are `1, 2, 3, …`. -/
def runBlinkFrom : List ℚ → ℤ → BlinkState → BlinkState
  | [], _, s => s
  | e :: es, i, s => runBlinkFrom es (i + 1) (blinkStep s e i)

def runBlink (ears : List ℚ) : BlinkState :=
  runBlinkFrom ears 1 blinkInit

/-- The blink detector as the claim words it: closed when `avgEAR ≤ 0.18`,
open when `avgEAR ≥ 0.25`, and a blink counted when at least 3 frames
(`framesSince ≥ 3`) have elapsed since the previously counted blink.
Written from the claim's words, to be compared with `blinkStep`. -/
def claimBlinkStep (s : BlinkState) (avgEAR : ℚ) (frameIndex : ℤ) : BlinkState :=
  let isClosed := decide (avgEAR ≤ EAR_CLOSED_THRESHOLD)
  let isOpen := decide (EAR_OPEN_THRESHOLD ≤ avgEAR)
  if isClosed then
    { s with closedFrameCount := s.closedFrameCount + 1, wasClosed := true }
  else if isOpen ∧ s.wasClosed then
    let framesSinceLastBlink := frameIndex - s.lastBlinkFrame
    if s.closedFrameCount ≥ 2 ∧ framesSinceLastBlink ≥ BLINK_DEBOUNCE_FRAMES then
      { blinkCount := s.blinkCount + 1, lastBlinkFrame := frameIndex
        wasClosed := false, closedFrameCount := 0 }
    else
      { s with wasClosed := false, closedFrameCount := 0 }
  else if isOpen then
    { s with wasClosed := false, closedFrameCount := 0 }
  else s

def claimRunBlinkFrom : List ℚ → ℤ → BlinkState → BlinkState
  | [], _, s => s
  | e :: es, i, s => claimRunBlinkFrom es (i + 1) (claimBlinkStep s e i)

def claimRunBlink (ears : List ℚ) : BlinkState :=
  claimRunBlinkFrom ears 1 blinkInit

/-- Specification-level blink counter for the amended claim: per-frame
hysteresis classification (strictly below 0.18 = closed, strictly above
0.25 = open, in between holds the prior phase), a count of qualifying
closed frames since the last open frame, and a debounce measured as the
number of frames elapsed since the previously counted blink, which must
exceed 3.  Structured over elapsed-frame counting instead of stored frame
indices; `specBlinkRel` links the two representations. -/
structure SpecBlinkState where
  count : ℕ
  inClosed : Bool
  qualifying : ℕ
  sinceLast : ℕ
deriving DecidableEq, Repr

def specBlinkStep (s : SpecBlinkState) (avgEAR : ℚ) : SpecBlinkState :=
  let since := s.sinceLast + 1
  if avgEAR < EAR_CLOSED_THRESHOLD then
    { s with inClosed := true, qualifying := s.qualifying + 1, sinceLast := since }
  else if EAR_OPEN_THRESHOLD < avgEAR then
    if s.inClosed ∧ s.qualifying ≥ 2 ∧ since > 3 then
      { count := s.count + 1, inClosed := false, qualifying := 0, sinceLast := 0 }
    else
      { s with inClosed := false, qualifying := 0, sinceLast := since }
  else
    { s with sinceLast := since }

/-- Before any frame, 4 frames are deemed elapsed since the (non-existent)
previous blink, matching `lastBlinkFrame = -4` at frame index 0. -/
def specBlinkInit : SpecBlinkState :=
  { count := 0, inClosed := false, qualifying := 0, sinceLast := 4 }

def specRunBlink (ears : List ℚ) : SpecBlinkState :=
  ears.foldl specBlinkStep specBlinkInit

/-! ## Head-turn detector (`checkHeadTurnLeft`, livenessChallenges.js)

`HEAD_TURN_THRESHOLD_FRACTION = 0.12`; the nose tip is `nose[3] || nose[0]`
(JavaScript: index 3 when the list has more than 3 points, else index 0),
and an empty nose list returns `false`.
-/

structure Point where
  x : ℚ
  y : ℚ
deriving DecidableEq, Repr

def HEAD_TURN_THRESHOLD_FRACTION : ℚ := 12 / 100

/-- `nose[3] || nose[0]` on a nonempty list headed by `p0`. -/
def noseTip (p0 : Point) (nose : List Point) : Point :=
  (nose.get? 3).getD p0

def checkHeadTurnLeft (nose : List Point) (boxX boxWidth : ℚ) : Bool :=
  match nose with
  | [] => false
  | p0 :: _ =>
    let noseX := (noseTip p0 nose).x
    let faceCenterX := boxX + boxWidth / 2
    let threshold := max 30 (boxWidth * HEAD_TURN_THRESHOLD_FRACTION)
    let diff := noseX - faceCenterX
    decide (diff ≥ threshold)

/-! ## Smile detector (`createSmileDetector`, livenessChallenges.js)

`SMILE_EXPANSION_FACTOR = 1.15`.  `getMouthWidth` returns `null` when no
valid mouth landmarks exist; here a reading is `Option ℚ`.  The closure
variable `neutralMouthWidth : float | null` is the `Option ℚ` state.
-/

def SMILE_EXPANSION_FACTOR : ℚ := 115 / 100

/-- One `update` call of the smile detector: `(result, new neutral)`. -/
def smileUpdate (neutral : Option ℚ) (reading : Option ℚ) : Bool × Option ℚ :=
  match reading with
  | none => (false, neutral)
  | some w =>
    match neutral with
    | none => (false, some w)
    | some n => (decide (w / n ≥ SMILE_EXPANSION_FACTOR), some n)

/-- Feed a sequence of mouth-width readings; `passedEver` records whether
any `update` returned `true` (the challenge runner latches the pass). -/
def runSmile (readings : List (Option ℚ)) : Bool × Option ℚ :=
  readings.foldl
    (fun acc r =>
      let (res, n) := smileUpdate acc.2 r
      (acc.1 || res, n))
    (false, none)

/-! ## Detection loop (`runDetection`, LivenessChallenge.jsx)

The loop is cooperative and single-threaded: each `requestAnimationFrame`
iteration first checks `status !== 'detecting'` (and in that case makes no
Landmark Provider call), otherwise calls the provider, feeds the runner,
and on `result.passed` sets the status to `success` and fires `onSuccess`.
A tick is one non-throttled iteration; its payload is `none` when the
provider saw no face and `some d` when it returned a detection `d`.  The
challenge runner is abstracted as a step function `step : R → D → Bool × R`
returning the `passed` flag and its next internal state. -/

inductive LStatus where
  | detecting
  | success
  | failed
deriving DecidableEq, Repr

structure LoopState (R : Type) where
  status : LStatus
  frame : ℕ
  noFaceCount : ℕ
  providerCalls : ℕ
  successCalls : ℕ
  runner : R

def loopTick {R D : Type} (step : R → D → Bool × R) (s : LoopState R)
    (tick : Option D) : LoopState R :=
  if ¬ s.status = LStatus.detecting then
    -- `status !== 'detecting'` guard: reschedule only, no provider call.
    s
  else
    let s1 := { s with frame := s.frame + 1, providerCalls := s.providerCalls + 1 }
    match tick with
    | none => { s1 with noFaceCount := s1.noFaceCount + 1 }
    | some d =>
      let pr := step s1.runner d
      if pr.1 then
        { s1 with runner := pr.2, noFaceCount := 0,
                  status := LStatus.success, successCalls := s1.successCalls + 1 }
      else
        { s1 with runner := pr.2, noFaceCount := 0 }

def runLoop {R D : Type} (step : R → D → Bool × R) (ticks : List (Option D))
    (s : LoopState R) : LoopState R :=
  ticks.foldl (loopTick step) s

/-- Simulation relation between the source blink state and the
specification blink state; `i` is the index of the next frame. -/
def BlinkSim (i : ℤ) (s : BlinkState) (t : SpecBlinkState) : Prop :=
  t.count = s.blinkCount ∧ t.inClosed = s.wasClosed ∧
    t.qualifying = s.closedFrameCount ∧
    (t.sinceLast : ℤ) = (i - 1) - s.lastBlinkFrame

/-! # Helper lemmas -/

theorem consecutiveLateWalk_take (l : List AStatus) :
    ∀ n : ℕ, consecutiveLateWalk (l.take n) = min (consecutiveLateWalk l) n := by
  induction l with
  | nil => intro n; simp [consecutiveLateWalk]
  | cons s rest ih =>
    intro n
    cases n with
    | zero => simp [consecutiveLateWalk]
    | succ m =>
      by_cases hs : s = AStatus.late
      · simp [consecutiveLateWalk, hs, ih m]
        omega
      · simp [consecutiveLateWalk, hs]

theorem matchesKey_mkUpsertedRecord (k : AKey) (lid : String) (inp : MarkInput)
    (fs : AStatus) (fc : ℕ) :
    matchesKey k (mkUpsertedRecord k lid inp fs fc) = true := by
  simp [matchesKey, mkUpsertedRecord]

theorem countKey_upsert (k : AKey) (r : AttendanceRecord)
    (hr : matchesKey k r = true) :
    ∀ db : List AttendanceRecord, countKey db k ≤ 1 →
      countKey (upsertAttendance k r db) k = 1 := by
  intro db
  induction db with
  | nil => intro _; simp [upsertAttendance, countKey, hr]
  | cons x rest ih =>
    intro hle
    by_cases hx : matchesKey k x = true
    · have h1 : countKey (x :: rest) k = countKey rest k + 1 := by
        simp [countKey, hx]
      have h0 : countKey rest k = 0 := by omega
      simp only [upsertAttendance, hx, if_true]
      simp only [countKey, List.filter] at h0 ⊢
      simp [hr, h0]
    · have hx2 : matchesKey k x = false := by simpa using hx
      have h1 : countKey (x :: rest) k = countKey rest k := by
        simp [countKey, hx2]
      have h2 := ih (by omega)
      simp only [upsertAttendance, hx2, Bool.false_eq_true, if_false]
      simp only [countKey, List.filter, hx2] at h2 ⊢
      exact h2

theorem countKey_markStudent (start : ℤ) (k : AKey) (lid : String)
    (inp : MarkInput) (db : List AttendanceRecord) (hdb : countKey db k ≤ 1) :
    countKey (markStudent start k lid inp db) k = 1 := by
  unfold markStudent
  exact countKey_upsert k _ (matchesKey_mkUpsertedRecord k lid inp _ _) db hdb

/-! # Claim theorems -/

/-- Claim C1: persistence in `markAttendance` is an upsert keyed on
`(studentId, classId, date, sessionId)`: after any nonempty sequence of
mark calls for one student within one session, exactly one
`AttendanceRecord` matches that key tuple (repeated mark calls are
idempotent in the number of records), provided the store satisfied the
uniqueness invariant beforehand. -/
theorem markAttendance_upsert_unique (start : ℤ) (k : AKey) (lid : String)
    (inps : List MarkInput) (db : List AttendanceRecord)
    (hne : inps ≠ []) (hdb : countKey db k ≤ 1) :
    countKey (markSequence start k lid inps db) k = 1 := by
  induction inps generalizing db with
  | nil => exact absurd rfl hne
  | cons inp rest ih =>
    cases rest with
    | nil => exact countKey_markStudent start k lid inp db hdb
    | cons inp2 rest2 =>
      have h1 := countKey_markStudent start k lid inp db hdb
      show countKey
        (markSequence start k lid (inp2 :: rest2) (markStudent start k lid inp db)) k = 1
      exact ih (markStudent start k lid inp db) (by simp) (by omega)

/-- Witness for C1: two repeated scans of the same student into an empty
store leave exactly one record under the key. -/
theorem markAttendance_upsert_unique_witness :
    countKey
      (markSequence 0 ⟨"stu", "cls", "2025-01-01", "sess"⟩ "lec"
        [⟨none, none, false, 0, []⟩, ⟨none, none, false, 60000, []⟩] [])
      ⟨"stu", "cls", "2025-01-01", "sess"⟩ = 1 :=
  markAttendance_upsert_unique 0 ⟨"stu", "cls", "2025-01-01", "sess"⟩ "lec"
    [⟨none, none, false, 0, []⟩, ⟨none, none, false, 60000, []⟩] []
    (by simp) (by simp [countKey])

/-- Claim C2: with no explicit status or explicit `present`, a late scan
increments the consecutive-late streak; at `≥ 3` the final status is
`absent` with the stored streak reset to `0`, otherwise `late` with the
incremented streak. -/
theorem determineFinalStatus_late_escalation (st : Option AStatus) (streak : ℕ)
    (h : st = none ∨ st = some AStatus.present) :
    determineFinalStatus st true streak =
      if streak + 1 ≥ MAX_CONSECUTIVE_LATE then (AStatus.absent, 0)
      else (AStatus.late, streak + 1) := by
  rcases h with h | h <;> subst h <;> rfl

/-- Witness for C2: at streak 2 a late scan escalates to `absent` with
stored streak 0; at streak 0 it yields `late` with streak 1. -/
theorem determineFinalStatus_late_escalation_witness :
    determineFinalStatus none true 2 = (AStatus.absent, 0) ∧
    determineFinalStatus (some AStatus.present) true 0 = (AStatus.late, 1) := by
  constructor
  · rw [determineFinalStatus_late_escalation none 2 (Or.inl rfl)]; decide
  · rw [determineFinalStatus_late_escalation (some AStatus.present) 0 (Or.inr rfl)]
    decide

/-- Claim C3: a scan with no explicit status is classified late exactly
when `(now − session.startTime) / 60000 > 5`; a scan 4 minutes after the
session start is persisted as `present` with streak 0 (whatever the prior
history), and a scan 6 minutes after the start with no prior late streak
is persisted as `late`. -/
theorem markAttendance_late_threshold :
    (∀ now start : ℤ,
      isLate now start = true ↔ ((now - start : ℤ) : ℚ) / 60000 > 5) ∧
    (∀ (start : ℤ) (k : AKey) (lid : String) (prev : List AStatus),
      (markStudent start k lid ⟨none, none, false, start + 4 * 60000, prev⟩ []).map
        (fun r => (r.status, r.consecutiveLateCount)) = [(AStatus.present, 0)]) ∧
    (∀ (start : ℤ) (k : AKey) (lid : String),
      (markStudent start k lid ⟨none, none, false, start + 6 * 60000, []⟩ []).map
        (fun r => (r.status, r.consecutiveLateCount)) = [(AStatus.late, 1)]) := by
  refine ⟨fun now start => ?_, fun start k lid prev => ?_, fun start k lid => ?_⟩
  · unfold isLate minutesLate LATE_THRESHOLD_MINUTES
    rw [decide_eq_true_iff]
    norm_num
  · have hdiff : ((start + 240000 - start : ℤ) : ℚ) = 240000 := by
      push_cast; ring
    have hlate : isLate (start + 240000) start = false := by
      unfold isLate minutesLate LATE_THRESHOLD_MINUTES
      rw [decide_eq_false_iff_not, hdiff]
      norm_num
    simp [markStudent, hlate, determineFinalStatus, upsertAttendance,
      mkUpsertedRecord]
  · have hdiff : ((start + 360000 - start : ℤ) : ℚ) = 360000 := by
      push_cast; ring
    have hlate : isLate (start + 360000) start = true := by
      unfold isLate minutesLate LATE_THRESHOLD_MINUTES
      rw [decide_eq_true_iff, hdiff]
      norm_num
    simp [markStudent, hlate, determineFinalStatus, upsertAttendance,
      mkUpsertedRecord, consecutiveLateCountOf, consecutiveLateWalk,
      MAX_CONSECUTIVE_LATE]

/-- Claim C4 counterexample: with four consecutive prior late records the
claimed full most-recent-first walk yields a streak of 4, but the
classifier's `.limit(3)` query caps the computed streak at 3, so the
streak does not equal the full walk "regardless of how many prior records
exist". -/
theorem consecutiveLate_limit3_counterexample :
    consecutiveLateCountOf
        [AStatus.late, AStatus.late, AStatus.late, AStatus.late] = 3 ∧
    consecutiveLateWalk
        [AStatus.late, AStatus.late, AStatus.late, AStatus.late] = 4 ∧
    consecutiveLateCountOf
        [AStatus.late, AStatus.late, AStatus.late, AStatus.late] ≠
      consecutiveLateWalk
        [AStatus.late, AStatus.late, AStatus.late, AStatus.late] := by
  decide

/-- Claim C4 amended: the consecutive-late streak used by the classifier
equals the length of the consecutive-late prefix of the prior-date
records (most-recent-first) capped at 3, because the history query limits
itself to the three most recent prior records. -/
theorem consecutiveLate_prefix_capped (prev : List AStatus) :
    consecutiveLateCountOf prev = min (consecutiveLateWalk prev) 3 :=
  consecutiveLateWalk_take prev 3

/-- Claim C5: `endSession` on a (nonempty) sessionId absent from the
active-session table answers `SessionNotFound` and performs no writes —
the session documents, the attendance records, the active-session table
and the audit log are all returned unchanged. -/
theorem endSession_not_found_no_writes (st : ServerState) (uid sid : String)
    (now : ℤ) (hsid : sid ≠ "")
    (h : lookupActive st.activeSessions sid = none) :
    endSession st uid sid now = (EndResult.sessionNotFound, st) := by
  unfold endSession
  rw [if_neg hsid, h]

/-- Witness for C5: ending an unknown session on a concrete server state
with one unrelated active session changes nothing. -/
theorem endSession_not_found_no_writes_witness :
    endSession ⟨[("s1", ⟨"cls", "lec", "2025-01-01", 0⟩)], [], [], []⟩
        "lec" "s2" 100 =
      (EndResult.sessionNotFound,
        ⟨[("s1", ⟨"cls", "lec", "2025-01-01", 0⟩)], [], [], []⟩) :=
  endSession_not_found_no_writes
    ⟨[("s1", ⟨"cls", "lec", "2025-01-01", 0⟩)], [], [], []⟩ "lec" "s2" 100
    (by decide) (by simp [lookupActive])

/-- Claim C7: for a face box of positive width and a nonempty nose
reading, `checkHeadTurnLeft` is true exactly when
`noseX − faceCenterX ≥ max(30, 0.12 × faceBox.width)`, and false when the
nose tip sits exactly at the face center. -/
theorem checkHeadTurnLeft_spec (nose : List Point) (boxX boxWidth : ℚ)
    (_hw : 0 < boxWidth) (hn : nose ≠ []) :
    (checkHeadTurnLeft nose boxX boxWidth = true ↔
      (noseTip (nose.head hn) nose).x - (boxX + boxWidth / 2) ≥
        max 30 (boxWidth * HEAD_TURN_THRESHOLD_FRACTION)) ∧
    ((noseTip (nose.head hn) nose).x = boxX + boxWidth / 2 →
      checkHeadTurnLeft nose boxX boxWidth = false) := by
  match nose with
  | p0 :: rest =>
    constructor
    · simp only [checkHeadTurnLeft, List.head]
      exact decide_eq_true_iff
    · intro hc
      simp only [List.head] at hc
      simp only [checkHeadTurnLeft, hc]
      rw [decide_eq_false_iff_not]
      intro habs
      have h30 : (30 : ℚ) ≤ max 30 (boxWidth * HEAD_TURN_THRESHOLD_FRACTION) :=
        le_max_left _ _
      simp at habs
      linarith

/-- Witness for C7: face box `x = 0, width = 100`, nose tip at `x = 100`:
offset 50 exceeds `max(30, 12)`, so the head-turn passes; the iff and the
center case are instantiated concretely. -/
theorem checkHeadTurnLeft_spec_witness :
    checkHeadTurnLeft [⟨100, 0⟩] 0 100 = true ∧
    checkHeadTurnLeft [⟨50, 0⟩] 0 100 = false := by
  have h1 := checkHeadTurnLeft_spec [⟨100, 0⟩] 0 100 (by norm_num) (by simp)
  have h2 := checkHeadTurnLeft_spec [⟨50, 0⟩] 0 100 (by norm_num) (by simp)
  refine ⟨h1.1.mpr ?_, h2.2 ?_⟩
  · show (100 : ℚ) - (0 + 100 / 2) ≥ max 30 (100 * HEAD_TURN_THRESHOLD_FRACTION)
    rw [show (100 : ℚ) * HEAD_TURN_THRESHOLD_FRACTION = 12 by
      norm_num [HEAD_TURN_THRESHOLD_FRACTION]]
    norm_num
  · show (50 : ℚ) = 0 + 100 / 2
    norm_num

/-- Claim C8: the smile detector returns false on the first valid reading
(storing it as the neutral baseline), passes on a subsequent valid reading
exactly when `currentWidth / neutralWidth ≥ 1.15`, and never passes when
no valid reading occurs in the attempt. -/
theorem smileDetector_spec :
    (∀ w : ℚ, smileUpdate none (some w) = (false, some w)) ∧
    (∀ n w : ℚ, 0 < n →
      ((smileUpdate (some n) (some w)).1 = true ↔ w / n ≥ SMILE_EXPANSION_FACTOR)) ∧
    (∀ rs : List (Option ℚ), (∀ r ∈ rs, r = none) → runSmile rs = (false, none)) := by
  refine ⟨fun w => rfl, fun n w _ => decide_eq_true_iff, fun rs hrs => ?_⟩
  induction rs with
  | nil => rfl
  | cons r rest ih =>
    have hr : r = none := hrs r (by simp)
    subst hr
    have : runSmile (none :: rest) = runSmile rest := rfl
    rw [this]
    exact ih (fun x hx => hrs x (by simp [hx]))

/-- Witness for C8: baseline capture returns false at width 10, a
subsequent reading of 12 (ratio 1.2 ≥ 1.15) passes, and an all-`none`
attempt never passes. -/
theorem smileDetector_spec_witness :
    smileUpdate none (some 10) = (false, some 10) ∧
    (smileUpdate (some 10) (some 12)).1 = true ∧
    runSmile [none, none] = (false, none) := by
  refine ⟨smileDetector_spec.1 10,
    (smileDetector_spec.2.1 10 12 (by norm_num)).mpr ?_,
    smileDetector_spec.2.2 [none, none] (by simp)⟩
  show (12 : ℚ) / 10 ≥ SMILE_EXPANSION_FACTOR
  norm_num [SMILE_EXPANSION_FACTOR]

theorem findByIdAndUpdate_of_lookup (aid : String) (st : AStatus)
    (remark : Option String) :
    ∀ (db : List (String × AttendanceRecord)) (a : AttendanceRecord),
      lookupById db aid = some a →
      (findByIdAndUpdate aid st remark db).1 =
          some { a with status := st, remark := remark } ∧
        lookupById (findByIdAndUpdate aid st remark db).2 aid =
          some { a with status := st, remark := remark } := by
  intro db
  induction db with
  | nil => intro a h; simp [lookupById] at h
  | cons e rest ih =>
    intro a h
    obtain ⟨i, r⟩ := e
    by_cases hi : i = aid
    · subst hi
      have hr : r = a := by
        simpa [lookupById, List.find?] using h
      subst hr
      simp [findByIdAndUpdate, lookupById, List.find?]
    · have h2 : lookupById rest aid = some a := by
        simpa [lookupById, List.find?, hi] using h
      have h3 := ih a h2
      constructor
      · simpa [findByIdAndUpdate, hi] using h3.1
      · simpa [findByIdAndUpdate, hi, lookupById, List.find?] using h3.2

/-- Claim C10: when a lecturer issues a manual override on an existing
record of a class they do not own, the `{status, remark}` update has
already been applied by `findByIdAndUpdate` before the ownership check
fires: the request is answered `Forbidden` yet the stored record carries
the new status and remark. -/
theorem manualOverride_forbidden_after_write
    (db : List (String × AttendanceRecord)) (uid aid : String) (st : AStatus)
    (remark : Option String) (a : AttendanceRecord) (haid : aid ≠ "")
    (hfind : lookupById db aid = some a) (hown : ¬ a.lecturerId = uid) :
    (manualOverride db "lecturer" uid aid st remark).1 =
        OverrideResult.forbidden ∧
      lookupById (manualOverride db "lecturer" uid aid st remark).2 aid =
        some { a with status := st, remark := remark } := by
  have h := findByIdAndUpdate_of_lookup aid st remark db a hfind
  unfold manualOverride
  rw [if_neg haid]
  simp only [h.1]
  rw [if_pos (⟨trivial, hown⟩ : True ∧ ¬ a.lecturerId = uid)]
  exact ⟨rfl, h.2⟩

/-- Witness for C10: a lecturer who does not own the record gets 403 while
the record's status and remark have already been overwritten. -/
theorem manualOverride_forbidden_after_write_witness :
    (manualOverride
        [("id1", ⟨"stu", "cls", "owner", "2025-01-01", "09:00:00", 0,
          AStatus.present, 0, false, "sess", none⟩)]
        "lecturer" "intruder" "id1" AStatus.excused (some "fixed")).1 =
      OverrideResult.forbidden ∧
    lookupById
        (manualOverride
          [("id1", ⟨"stu", "cls", "owner", "2025-01-01", "09:00:00", 0,
            AStatus.present, 0, false, "sess", none⟩)]
          "lecturer" "intruder" "id1" AStatus.excused (some "fixed")).2 "id1" =
      some ⟨"stu", "cls", "owner", "2025-01-01", "09:00:00", 0,
        AStatus.excused, 0, false, "sess", some "fixed"⟩ :=
  manualOverride_forbidden_after_write
    [("id1", ⟨"stu", "cls", "owner", "2025-01-01", "09:00:00", 0,
      AStatus.present, 0, false, "sess", none⟩)]
    "intruder" "id1" AStatus.excused (some "fixed")
    ⟨"stu", "cls", "owner", "2025-01-01", "09:00:00", 0,
      AStatus.present, 0, false, "sess", none⟩
    (by decide) (by simp [lookupById, List.find?]) (by decide)

/-- Claim C6 counterexample: on the average-EAR trace
`[0.1, 0.1, 0.3, 0.1, 0.1, 0.3]` (closed, closed, open, closed, closed,
open) the first blink is counted at frame 3; the second open transition
happens exactly 3 frames later, which the claim's "at least 3 frames have
elapsed" reading counts as a second blink, but the source requires
`framesSinceLastBlink > 3` and counts only one. -/
theorem blink_debounce_counterexample :
    (runBlink [1/10, 1/10, 3/10, 1/10, 1/10, 3/10]).blinkCount = 1 ∧
    (claimRunBlink [1/10, 1/10, 3/10, 1/10, 1/10, 3/10]).blinkCount = 2 ∧
    (runBlink [1/10, 1/10, 3/10, 1/10, 1/10, 3/10]).blinkCount ≠
      (claimRunBlink [1/10, 1/10, 3/10, 1/10, 1/10, 3/10]).blinkCount := by
  have h1 : (runBlink [1/10, 1/10, 3/10, 1/10, 1/10, 3/10]).blinkCount = 1 := by
    norm_num [runBlink, runBlinkFrom, blinkStep, blinkInit,
      EAR_CLOSED_THRESHOLD, EAR_OPEN_THRESHOLD, BLINK_DEBOUNCE_FRAMES]
  have h2 : (claimRunBlink [1/10, 1/10, 3/10, 1/10, 1/10, 3/10]).blinkCount = 2 := by
    norm_num [claimRunBlink, claimRunBlinkFrom, claimBlinkStep, blinkInit,
      EAR_CLOSED_THRESHOLD, EAR_OPEN_THRESHOLD, BLINK_DEBOUNCE_FRAMES]
  exact ⟨h1, h2, by omega⟩

theorem blinkStep_sim (i : ℤ) (s : BlinkState) (t : SpecBlinkState) (e : ℚ)
    (h : BlinkSim i s t) :
    BlinkSim (i + 1) (blinkStep s e i) (specBlinkStep t e) := by
  obtain ⟨hc, hw, hq, hs⟩ := h
  unfold blinkStep specBlinkStep BlinkSim
  simp only [decide_eq_true_eq, BLINK_DEBOUNCE_FRAMES]
  split_ifs with h1 h2 h3 h4 h5 h6 h7 h8 h9 <;>
    refine ⟨?_, ?_, ?_, ?_⟩ <;> simp_all <;> omega

theorem runBlinkFrom_sim (es : List ℚ) :
    ∀ (i : ℤ) (s : BlinkState) (t : SpecBlinkState), BlinkSim i s t →
      BlinkSim (i + es.length) (runBlinkFrom es i s) (es.foldl specBlinkStep t) := by
  induction es with
  | nil => intro i s t h; simpa using h
  | cons e rest ih =>
    intro i s t h
    have h3 := ih (i + 1) (blinkStep s e i) (specBlinkStep t e)
      (blinkStep_sim i s t e h)
    have heq : (i + 1) + (rest.length : ℤ) = i + ((e :: rest).length : ℤ) := by
      push_cast [List.length_cons]
      ring
    rw [heq] at h3
    exact h3

/-- Claim C6 amended: with the source's strict thresholds (closed when
avg EAR < 0.18, open when avg EAR > 0.25, values in between holding the
prior state) and a debounce requiring strictly more than 3 frames since
the previously counted blink, the blink detector counts exactly the
blinks of the specification-level counter `specRunBlink`: a blink per
closed→open transition whose closed phase had ≥ 2 qualifying frames,
never two blinks within 3 frames of each other. -/
theorem blinkDetector_matches_spec (ears : List ℚ) :
    (runBlink ears).blinkCount = (specRunBlink ears).count := by
  have h0 : BlinkSim 1 blinkInit specBlinkInit := by
    refine ⟨rfl, rfl, rfl, ?_⟩
    simp [blinkInit, specBlinkInit, BLINK_DEBOUNCE_FRAMES]
  have h := runBlinkFrom_sim ears 1 blinkInit specBlinkInit h0
  exact h.1.symm

theorem runLoop_frozen {R D : Type} (step : R → D → Bool × R) :
    ∀ (ticks : List (Option D)) (s : LoopState R),
      ¬ s.status = LStatus.detecting → runLoop step ticks s = s := by
  intro ticks
  induction ticks with
  | nil => intro s _; rfl
  | cons tk rest ih =>
    intro s h
    show runLoop step rest (loopTick step s tk) = s
    have hfix : loopTick step s tk = s := by
      unfold loopTick
      rw [if_pos h]
    rw [hfix]
    exact ih s h

/-- Claim C9: once the loop state leaves `detecting` the loop is inert —
no further Landmark Provider calls, no detector invocation, no state
change at all (first conjunct); and from the start of an attempt
(`detecting`, no success callback fired yet) the success callback fires
at most once, and exactly once precisely when the attempt ends in
`success` (second conjunct). -/
theorem livenessLoop_success_terminal {R D : Type} (step : R → D → Bool × R) :
    (∀ (ticks : List (Option D)) (s : LoopState R),
      ¬ s.status = LStatus.detecting → runLoop step ticks s = s) ∧
    (∀ (ticks : List (Option D)) (s : LoopState R),
      s.status = LStatus.detecting → s.successCalls = 0 →
      (runLoop step ticks s).successCalls ≤ 1 ∧
        ((runLoop step ticks s).successCalls = 1 ↔
          (runLoop step ticks s).status = LStatus.success)) := by
  refine ⟨runLoop_frozen step, ?_⟩
  intro ticks
  induction ticks with
  | nil =>
    intro s hst hsc
    constructor
    · show s.successCalls ≤ 1
      omega
    · show s.successCalls = 1 ↔ s.status = LStatus.success
      rw [hsc, hst]
      simp
  | cons tk rest ih =>
    intro s hst hsc
    have hstep : runLoop step (tk :: rest) s =
        runLoop step rest (loopTick step s tk) := rfl
    rw [hstep]
    match tk with
    | none =>
      have hfix : loopTick step s none =
          { s with frame := s.frame + 1, providerCalls := s.providerCalls + 1,
                   noFaceCount := s.noFaceCount + 1 } := by
        unfold loopTick
        rw [if_neg (by simp [hst])]
      rw [hfix]
      exact ih _ hst hsc
    | some d =>
      by_cases hp : (step s.runner d).1 = true
      · have hfix : loopTick step s (some d) =
            { s with frame := s.frame + 1, providerCalls := s.providerCalls + 1,
                     runner := (step s.runner d).2, noFaceCount := 0,
                     status := LStatus.success,
                     successCalls := s.successCalls + 1 } := by
          unfold loopTick
          rw [if_neg (by simp [hst])]
          simp [hp]
        rw [hfix, runLoop_frozen step rest _ (by simp)]
        simp [hsc]
      · have hp2 : (step s.runner d).1 = false := by simpa using hp
        have hfix : loopTick step s (some d) =
            { s with frame := s.frame + 1, providerCalls := s.providerCalls + 1,
                     runner := (step s.runner d).2, noFaceCount := 0 } := by
          unfold loopTick
          rw [if_neg (by simp [hst])]
          simp [hp2]
        rw [hfix]
        exact ih _ hst hsc

/-- Witness for C9: a one-tick attempt whose detector passes immediately
fires the success callback exactly once and ends in `success`. -/
theorem livenessLoop_success_terminal_witness :
    (runLoop (fun (_ : Unit) (_ : Unit) => (true, ())) [some ()]
        ⟨LStatus.detecting, 0, 0, 0, 0, ()⟩).successCalls ≤ 1 ∧
    ((runLoop (fun (_ : Unit) (_ : Unit) => (true, ())) [some ()]
        ⟨LStatus.detecting, 0, 0, 0, 0, ()⟩).successCalls = 1 ↔
      (runLoop (fun (_ : Unit) (_ : Unit) => (true, ())) [some ()]
        ⟨LStatus.detecting, 0, 0, 0, 0, ()⟩).status = LStatus.success) :=
  (livenessLoop_success_terminal (fun (_ : Unit) (_ : Unit) => (true, ()))).2
    [some ()] ⟨LStatus.detecting, 0, 0, 0, 0, ()⟩ rfl rfl

end FaceAttendance
